import Mathlib

/-!
# Activity-log consumer: retry / dead-letter protocol and worker lifecycle

Shallow embedding of `internal/consumers/activity_log_consumer.go`, of the pipeline it
calls (`internal/services`, `internal/repo`) and of `internal/consumers/consumer_manager.go`.

* Go `int` is the 64-bit signed integer of the usual targets; it is modelled by `Int`
  with the wrap-around made explicit (`wrapInt`).  Go `int32` is the subtype `GoInt32`,
  and the conversion `int32(x)` is the two's complement truncation `toInt32`.
* `amqp091.Table` (`map[string]interface{}`) is an association list with unique-key
  assignment; a nil map is `none`.
* Calls to the broker (`Publish`, `Ack`, `Reject`) and every `fmt.Printf` are recorded, in
  program order, as a list of `Effect`s; the results the broker returns are inputs.
* The Go standard library and the drivers (`json.Unmarshal`, `time.Parse`, `InsertOne`) are
  inputs of the pipeline (`ServiceEnv`).
* Goroutines are modelled by interleaving: one `Step` is one atomic move of one goroutine.
-/

namespace Consumers

/-! ## Machine integers -/

/-- Go `int32`: the integers of the signed 32-bit range. -/
abbrev GoInt32 := { v : Int // -2147483648 ≤ v ∧ v ≤ 2147483647 }

/-- The conversion `int32(x)` applied to a Go `int`: truncation to 32 bits. -/
def toInt32 (x : Int) : GoInt32 :=
  ⟨(x + 2147483648) % 4294967296 - 2147483648, by omega⟩

/-- Result of an arithmetic operation on the 64-bit Go `int`, which wraps around. -/
def wrapInt (x : Int) : Int :=
  (x + 9223372036854775808) % 18446744073709551616 - 9223372036854775808

/-! ## Data model -/

/-- Go `error` values, identified by their `Error()` text. -/
abbrev Error := String

/-- Dynamic types a value of an `amqp091.Table` can have.  Floats, decimals, timestamps,
nested tables and arrays are not inspected by the consumer and are collapsed to `other`. -/
inductive FieldValue where
  | null
  | bool (b : Bool)
  | uint8 (v : Nat)
  | int8 (v : Int)
  | int16 (v : Int)
  | int32 (v : GoInt32)
  | int64 (v : Int)
  | str (s : String)
  | bytes (b : List UInt8)
  | other (tag : String)
  deriving DecidableEq

/-- The entries of a non-nil `amqp091.Table`. -/
abbrev Table := List (String × FieldValue)

/-- Map lookup `t[k]`, with the comma-ok result as an `Option`. -/
def tableGet : Table → String → Option FieldValue
  | [], _ => none
  | (k', v') :: t, k => if k' = k then some v' else tableGet t k

/-- Map assignment `t[k] = v`. -/
def tableSet : Table → String → FieldValue → Table
  | [], k, v => [(k, v)]
  | (k', v') :: t, k, v => if k' = k then (k, v) :: t else (k', v') :: tableSet t k v

/-- The fields of `amqp091.Delivery` the consumer reads. -/
structure Delivery where
  RoutingKey : String
  Body : List UInt8
  Headers : Option Table
  deriving DecidableEq

/-- The fields of `amqp091.Publishing` the consumer sets. -/
structure Publishing where
  ContentType : String
  Body : List UInt8
  Headers : Table
  Expiration : String
  deriving DecidableEq

/-- The part of `global.Config.RabbitMQ` read while a message is handled. -/
structure RabbitMQ where
  IAMExchange : String
  RetryAttempts : Int
  RetryDelaySeconds : Int
  deriving DecidableEq

/-- What the broker answers to the calls made while one delivery is handled
(`none` is a nil error).  Each of the three calls is made at most once per delivery. -/
structure Broker where
  publishErr : Option Error
  ackErr : Option Error
  rejectErr : Option Error
  deriving DecidableEq

/-- Observable actions of the consumer, in program order. -/
inductive Effect where
  | printReceived (routingKey : String)
  | printProcessingError (err : Error)
  | printRetrying (attempt : Int) (err : Error)
  | publish (exchange key : String) (mandatory immediate : Bool) (msg : Publishing)
  | printPublishError (err : Error)
  | ack (multiple : Bool)
  | printRetryAckError (err : Error)
  | printRejecting (err : Error)
  | failedMessageLog (routingKey : String) (err : Error) (body : List UInt8)
      (headers : Option Table) (retryCount : Int)
  | reject (requeue : Bool)
  | printRejectError (err : Error)
  | printAckError (err : Error)
  | printAckOk
  deriving DecidableEq

/-! ## The retry policy and the acknowledgment protocol -/

/-- Embedding of `getRetryCount`: 0 for nil headers, the `int32` stored under `x-retry-count`
when the type assertion succeeds, 0 otherwise. -/
def getRetryCount (message : Delivery) : Int :=
  match message.Headers with
  | none => 0
  | some headers =>
    match tableGet headers "x-retry-count" with
    | some (FieldValue.int32 count) => count.val
    | _ => 0

/-- Embedding of `shouldRetry`. -/
def shouldRetry (cfg : RabbitMQ) (message : Delivery) : Bool :=
  let retryCount := getRetryCount message
  let maxRetries := cfg.RetryAttempts
  decide (retryCount < maxRetries)

/-- Embedding of `logFailedMessage`: one record for the five lines it prints. -/
def logFailedMessage (message : Delivery) (processingError : Error) : List Effect :=
  [Effect.failedMessageLog message.RoutingKey processingError message.Body message.Headers
    (getRetryCount message)]

/-- Embedding of `rejectMessage`. -/
def rejectMessage (br : Broker) (message : Delivery) (processingError : Error) : List Effect :=
  [Effect.printRejecting processingError] ++ logFailedMessage message processingError ++
    [Effect.reject false] ++
    (match br.rejectErr with
     | some err => [Effect.printRejectError err]
     | none => [])

/-- The header table `retryMessage` builds: the delivery's own map (a fresh one when it is
nil) after the three assignments. -/
def retryHeaders (message : Delivery) (retryCount : Int) (processingError : Error) : Table :=
  let headers : Table :=
    match message.Headers with
    | some h => h
    | none => []
  let headers := tableSet headers "x-retry-count" (FieldValue.int32 (toInt32 retryCount))
  let headers := tableSet headers "x-original-routing-key" (FieldValue.str message.RoutingKey)
  tableSet headers "x-retry-reason" (FieldValue.str processingError)

/-- The message `retryMessage` hands to `Publish`. -/
def retryPublishing (cfg : RabbitMQ) (message : Delivery) (processingError : Error) :
    Publishing :=
  let retryCount := wrapInt (getRetryCount message + 1)
  let retryDelay := cfg.RetryDelaySeconds
  { ContentType := "application/json"
    Body := message.Body
    Headers := retryHeaders message retryCount processingError
    Expiration := toString retryDelay ++ "000" }

/-- The delivery as `retryMessage` sees it after the header assignments: a non-nil header
map is shared with the delivery (maps are references), a nil one stays nil. -/
def afterHeaderWrites (message : Delivery) (retryCount : Int) (processingError : Error) :
    Delivery :=
  match message.Headers with
  | some _ => { message with Headers := some (retryHeaders message retryCount processingError) }
  | none => message

/-- Embedding of `retryMessage`. -/
def retryMessage (cfg : RabbitMQ) (br : Broker) (message : Delivery)
    (processingError : Error) : List Effect :=
  let retryCount := wrapInt (getRetryCount message + 1)
  [Effect.printRetrying retryCount processingError,
   Effect.publish cfg.IAMExchange message.RoutingKey false false
     (retryPublishing cfg message processingError)] ++
  (match br.publishErr with
   | some err =>
     Effect.printPublishError err ::
       rejectMessage br (afterHeaderWrites message retryCount processingError) err
   | none =>
     Effect.ack false ::
       (match br.ackErr with
        | some err => [Effect.printRetryAckError err]
        | none => []))

/-- Embedding of `handleMessage`; `handleResult` is what `c.Handle` returned for the body
(`none` is nil). -/
def handleMessage (cfg : RabbitMQ) (br : Broker) (handleResult : Option Error)
    (message : Delivery) : List Effect :=
  Effect.printReceived message.RoutingKey ::
  (match handleResult with
   | some err =>
     Effect.printProcessingError err ::
       (if shouldRetry cfg message then retryMessage cfg br message err
        else rejectMessage br message err)
   | none =>
     Effect.ack false ::
       (match br.ackErr with
        | some err => [Effect.printAckError err]
        | none => [Effect.printAckOk]))

/-! ## A message that keeps failing -/

/-- The delivery the broker makes of a republished message: it arrives under the routing key
it was published with and carries the body and the headers it was published with. -/
def redeliver (key : String) (msg : Publishing) : Delivery :=
  { RoutingKey := key, Body := msg.Body, Headers := some msg.Headers }

/-- The first `Publish` call among the effects of one handling, if there is one. -/
def published : List Effect → Option (String × Publishing)
  | [] => none
  | Effect.publish _ key _ _ msg :: _ => some (key, msg)
  | _ :: rest => published rest

/-- Life of one logical message whose processing fails on every delivery (`errs k` is the
error of the `k`-th handling, counted from 0): the delivery is handled, and as long as the
handling republished a copy that copy is delivered and handled in turn.  The result lists
the effects of each handling; `none` means the fuel ran out before the message came to
rest. -/
def failingRun (cfg : RabbitMQ) (br : Broker) (errs : Nat → Error) :
    Nat → Delivery → Option (List (List Effect))
  | 0, _ => none
  | fuel + 1, d =>
    let effs := handleMessage cfg br (some (errs 0)) d
    match published effs with
    | none => some [effs]
    | some (key, msg) =>
      (failingRun cfg br (fun k => errs (k + 1)) fuel (redeliver key msg)).map
        (fun later => effs :: later)

/-- The `x-retry-count` header of every message handed to `Publish`, read the way
`getRetryCount` reads it (`none` when it is absent or not an `int32`). -/
def publishedRetryCounts : List Effect → List (Option Int)
  | [] => []
  | Effect.publish _ _ _ _ msg :: rest =>
    (match tableGet msg.Headers "x-retry-count" with
     | some (FieldValue.int32 v) => some v.val
     | _ => none) :: publishedRetryCounts rest
  | _ :: rest => publishedRetryCounts rest

/-- The `multiple` flag of every `Ack` call. -/
def acks : List Effect → List Bool
  | [] => []
  | Effect.ack multiple :: rest => multiple :: acks rest
  | _ :: rest => acks rest

/-- The `requeue` flag of every `Reject` call. -/
def rejects : List Effect → List Bool
  | [] => []
  | Effect.reject requeue :: rest => requeue :: rejects rest
  | _ :: rest => rejects rest

/-- The error and the retry count recorded by every failed-message log. -/
def failedLogs : List Effect → List (Error × Int)
  | [] => []
  | Effect.failedMessageLog _ err _ _ retryCount :: rest => (err, retryCount) :: failedLogs rest
  | _ :: rest => failedLogs rest

/-- The error every "Rejecting message after max retries" line is printed with. -/
def rejectingErrors : List Effect → List Error
  | [] => []
  | Effect.printRejecting err :: rest => err :: rejectingErrors rest
  | _ :: rest => rejectingErrors rest

/-- What one handling did to the broker: the retry counts it published, its acks, its
rejects, and the retry counts it logged as failed. -/
structure HopSummary where
  republishedCounts : List (Option Int)
  acks : List Bool
  rejects : List Bool
  loggedCounts : List Int
  deriving DecidableEq

/-- Summary of the effects of one handling. -/
def summary (effs : List Effect) : HopSummary :=
  { republishedCounts := publishedRetryCounts effs
    acks := acks effs
    rejects := rejects effs
    loggedCounts := (failedLogs effs).map Prod.snd }

/-! ## Worker lifecycle -/

/-- Handle of an `amqp091.Channel`. -/
structure Channel where
  id : Nat
  deriving DecidableEq

/-- State of an `activityLogConsumer`.  The stop channel never carries a value; all that
matters is whether it has been closed.  `loops` counts the `processMessages` goroutines
spawned so far. -/
structure activityLogConsumer where
  name : String
  channel : Option Channel
  queue : String
  isRunning : Bool
  stopChannelClosed : Bool
  loops : Nat
  deriving DecidableEq

/-- Embedding of `NewActivityLogConsumer`. -/
def NewActivityLogConsumer : activityLogConsumer :=
  { name := "ActivityLogConsumer", channel := none, queue := "", isRunning := false,
    stopChannelClosed := false, loops := 0 }

/-- What `Start` finds around it: the global channel and queue name, and the results of
`Qos` and `Consume` (`none` is a nil error). -/
structure StartEnv where
  ActivityLogRabbitCh : Option Channel
  ActivityLogQueue : String
  qosErr : Option Error
  consumeErr : Option Error
  deriving DecidableEq

/-- Embedding of `Start`: the new state and the returned error. -/
def Start (c : activityLogConsumer) (env : StartEnv) : activityLogConsumer × Option Error :=
  let c := { c with channel := env.ActivityLogRabbitCh, queue := env.ActivityLogQueue }
  match c.channel with
  | none => (c, some "RabbitMQ channel is not initialized")
  | some _ =>
    match env.qosErr with
    | some err => (c, some ("failed to set QoS: " ++ err))
    | none =>
      match env.consumeErr with
      | some err => (c, some ("failed to consume from RabbitMQ: " ++ err))
      | none => ({ c with isRunning := true, loops := c.loops + 1 }, none)

/-- Embedding of `Stop`.  The Go function returns nil on every path; the result here is the
new state, or the run-time panic raised by closing a channel that is already closed.  The
result of `Cancel` is only printed. -/
def Stop (c : activityLogConsumer) ( _cancelErr : Option Error) :
    Except String activityLogConsumer :=
  if !c.isRunning then Except.ok c
  else
    let c := { c with isRunning := false }
    if c.stopChannelClosed then Except.error "close of closed channel"
    else Except.ok { c with stopChannelClosed := true }

/-- A call made on a worker by its owner. -/
inductive Call where
  | start (env : StartEnv)
  | stop (cancelErr : Option Error)
  deriving DecidableEq

/-- One call applied to a worker. -/
def applyCall (c : activityLogConsumer) : Call → Except String activityLogConsumer
  | Call.start env => Except.ok (Start c env).1
  | Call.stop cancelErr => Stop c cancelErr

/-- A sequence of calls applied in order; a panic ends the run. -/
def runCalls : activityLogConsumer → List Call → Except String activityLogConsumer
  | c, [] => Except.ok c
  | c, call :: rest =>
    match applyCall c call with
    | Except.ok c1 => runCalls c1 rest
    | Except.error e => Except.error e

/-- A `Start` that does not get as far as setting `isRunning`: the global channel is nil, or
`Qos` or `Consume` returns an error. -/
def StartEnv.fails (env : StartEnv) : Bool :=
  env.ActivityLogRabbitCh.isNone || env.qosErr.isSome || env.consumeErr.isSome

/-- A call that is not a successful `Start`. -/
def Call.noRestart : Call → Bool
  | Call.start env => env.fails
  | Call.stop _ => true

/-- The broker calls among the effects of one handling, in the order they were made. -/
def brokerCalls : List Effect → List Effect
  | [] => []
  | Effect.publish exchange key mandatory immediate msg :: rest =>
    Effect.publish exchange key mandatory immediate msg :: brokerCalls rest
  | Effect.ack multiple :: rest => Effect.ack multiple :: brokerCalls rest
  | Effect.reject requeue :: rest => Effect.reject requeue :: brokerCalls rest
  | _ :: rest => brokerCalls rest

/-- The value stored under `key` in the headers of every message handed to `Publish`. -/
def publishedHeader (key : String) : List Effect → List (Option FieldValue)
  | [] => []
  | Effect.publish _ _ _ _ msg :: rest => tableGet msg.Headers key :: publishedHeader key rest
  | _ :: rest => publishedHeader key rest

/-! ## Sample data -/

/-- The default configuration of `loadconfig.go`: three retry attempts, five seconds. -/
def defaultConfig : RabbitMQ :=
  { IAMExchange := "iam_events_topic", RetryAttempts := 3, RetryDelaySeconds := 5 }

/-- A broker that answers every call with a nil error. -/
def okBroker : Broker :=
  { publishErr := none, ackErr := none, rejectErr := none }

/-- A broker whose `Publish` fails. -/
def publishDownBroker : Broker :=
  { publishErr := some "channel/connection is not open", ackErr := none, rejectErr := none }

/-- A first delivery: no headers yet. -/
def freshDelivery : Delivery :=
  { RoutingKey := "user.created.log", Body := [123, 125], Headers := none }

/-- A delivery on its second retry hop. -/
def retriedDelivery : Delivery :=
  { RoutingKey := "user.created.log", Body := [123, 125],
    Headers := some [("x-retry-count", FieldValue.int32 ⟨2, by decide⟩),
      ("x-original-routing-key", FieldValue.str "user.created.log"),
      ("x-retry-reason", FieldValue.str "failed to process event")] }

/-- A delivery whose retry count has reached the default limit. -/
def exhaustedDelivery : Delivery :=
  { RoutingKey := "user.created.log", Body := [123, 125],
    Headers := some [("x-retry-count", FieldValue.int32 ⟨3, by decide⟩)] }

/-- A delivery that reaches the queue under another routing key than the one recorded in
its `x-original-routing-key` header. -/
def reroutedDelivery : Delivery :=
  { RoutingKey := "user.created.log", Body := [123, 125],
    Headers := some [("x-retry-count", FieldValue.int32 ⟨1, by decide⟩),
      ("x-original-routing-key", FieldValue.str "workspace.created.log")] }

/-- A delivery whose `x-retry-count` is the largest `int32`. -/
def maxCountDelivery : Delivery :=
  { RoutingKey := "user.created.log", Body := [123, 125],
    Headers := some [("x-retry-count", FieldValue.int32 ⟨2147483647, by decide⟩)] }

/-- A configuration whose retry limit exceeds the `int32` range. -/
def hugeLimitConfig : RabbitMQ :=
  { IAMExchange := "iam_events_topic", RetryAttempts := 2147483648, RetryDelaySeconds := 5 }

/-- A delivery whose `x-retry-count` was written as a 64-bit integer. -/
def int64CountDelivery : Delivery :=
  { RoutingKey := "user.created.log", Body := [123, 125],
    Headers := some [("x-retry-count", FieldValue.int64 5)] }

/-- An environment in which `Start` succeeds. -/
def goodEnv : StartEnv :=
  { ActivityLogRabbitCh := some { id := 1 }, ActivityLogQueue := "iam_activity_log_queue",
    qosErr := none, consumeErr := none }

/-- An environment in which the global channel is nil. -/
def noChannelEnv : StartEnv :=
  { ActivityLogRabbitCh := none, ActivityLogQueue := "iam_activity_log_queue",
    qosErr := none, consumeErr := none }

/-- A worker that has been started successfully. -/
def runningWorker : activityLogConsumer := (Start NewActivityLogConsumer goodEnv).1

/-- Whether a delivery carries no `x-retry-count` header (nil headers included). -/
def noRetryHeader (message : Delivery) : Bool :=
  match message.Headers with
  | none => true
  | some headers => (tableGet headers "x-retry-count").isNone

/-- Summary of a handling that republished one copy with the given retry count and acked
the original. -/
def republishedHop (count : Int) : HopSummary :=
  { republishedCounts := [some count], acks := [false], rejects := [], loggedCounts := [] }

/-- Summary of a handling that rejected the delivery without requeue after logging the
given retry count. -/
def rejectedHop (count : Int) : HopSummary :=
  { republishedCounts := [], acks := [], rejects := [false], loggedCounts := [count] }

/-- The `Expiration` of every message handed to `Publish`. -/
def publishedExpirations : List Effect → List String
  | [] => []
  | Effect.publish _ _ _ _ msg :: rest => msg.Expiration :: publishedExpirations rest
  | _ :: rest => publishedExpirations rest

/-! ## The processing pipeline: validation, timestamp parsing, persistence -/

/-- Dynamic types a value of an event payload (`map[string]interface{}` filled by
`json.Unmarshal`) can have.  Numbers are kept as their text; arrays and objects are not
inspected by the service and are kept as their raw text. -/
inductive JSONValue where
  | null
  | bool (b : Bool)
  | number (text : String)
  | str (s : String)
  | nested (raw : String)
  deriving DecidableEq

/-- Embedding of `dto.GenericEvent`; a nil `Payload` map is `none`. -/
structure GenericEvent where
  EventID : String
  Topic : String
  SourceService : String
  Timestamp : String
  Payload : Option (List (String × JSONValue))
  deriving DecidableEq

/-- Embedding of `ValidateEventStructure`; the argument is the pointer `event` (`none` is
nil) and the result the returned error (`none` is nil). -/
def ValidateEventStructure (event : Option GenericEvent) : Option Error :=
  match event with
  | none => some "event is nil"
  | some event =>
    if event.EventID = "" then some "eventId is required"
    else if event.Topic = "" then some "topic is required"
    else if event.SourceService = "" then some "sourceService is required"
    else if event.Timestamp = "" then some "timestamp is required"
    else none

/-- A `time.Time`, identified by its instant in nanoseconds since the Unix epoch. -/
structure Time where
  unixNanos : Int
  deriving DecidableEq

/-- The zero `time.Time{}`: January 1 of year 1, 00:00:00 UTC. -/
def zeroTime : Time := { unixNanos := -62135596800000000000 }

/-- A `primitive.ObjectID`, as the number its twelve bytes spell. -/
abbrev ObjectID := Nat

/-- The value `primitive.NilObjectID`. -/
def NilObjectID : ObjectID := 0

/-- Embedding of `models.ActivityLog`. -/
structure ActivityLog where
  ID : ObjectID
  EventID : String
  Topic : String
  SourceService : String
  Timestamp : Time
  Payload : Option (List (String × JSONValue))
  ProcessedAt : Time
  Version : Int
  deriving DecidableEq

/-- What the service finds around it, outside this repository: `json.Unmarshal` into a
`GenericEvent`, `time.Parse layout value` (`none` is an error), the clock, and the result
of `InsertOne` (the inserted id when it is an `ObjectID`). -/
structure ServiceEnv where
  unmarshal : List UInt8 → Except Error GenericEvent
  timeParse : String → String → Option Time
  now : Time
  insertOne : ActivityLog → Except Error (Option ObjectID)

/-- The layouts `parseTimestamp` tries, in order: `time.RFC3339`, `time.RFC3339Nano` and
three literal layouts. -/
def timestampFormats : List String :=
  ["2006-01-02T15:04:05Z07:00",
   "2006-01-02T15:04:05.999999999Z07:00",
   "2006-01-02T15:04:05Z",
   "2006-01-02T15:04:05.000Z",
   "2006-01-02 15:04:05"]

/-- The loop of `parseTimestamp`: the first layout that parses wins. -/
def parseWithFormats (timeParse : String → String → Option Time) (timestampStr : String) :
    List String → Option Time
  | [] => none
  | format :: rest =>
    match timeParse format timestampStr with
    | some t => some t
    | none => parseWithFormats timeParse timestampStr rest

/-- Embedding of `parseTimestamp`. -/
def parseTimestamp (env : ServiceEnv) (timestampStr : String) : Except Error Time :=
  match parseWithFormats env.timeParse timestampStr timestampFormats with
  | some t => Except.ok t
  | none => Except.error ("unable to parse timestamp: " ++ timestampStr)

/-- Embedding of the repository's `Create`: the record after the call and the returned
error. -/
def Create (env : ServiceEnv) (log : ActivityLog) : ActivityLog × Option Error :=
  let log := { log with ProcessedAt := env.now, Version := 1 }
  match env.insertOne log with
  | Except.error err => (log, some ("failed to insert document to MongoDB: " ++ err))
  | Except.ok (some oid) => ({ log with ID := oid }, none)
  | Except.ok none => (log, none)

/-- Embedding of `ProcessEvent`: the records handed to `Create`, one per call, and the
returned error.  A nil event never passes validation, so the branch that would dereference
it is never taken. -/
def ProcessEvent (env : ServiceEnv) (event : Option GenericEvent) :
    List ActivityLog × Option Error :=
  match ValidateEventStructure event with
  | some err => ([], some ("event validation failed: " ++ err))
  | none =>
    match event with
    | none => ([], some "invalid memory address or nil pointer dereference")
    | some event =>
      match parseTimestamp env event.Timestamp with
      | Except.error err => ([], some ("failed to parse timestamp: " ++ err))
      | Except.ok timestamp =>
        let activityLog : ActivityLog :=
          { ID := NilObjectID
            EventID := event.EventID
            Topic := event.Topic
            SourceService := event.SourceService
            Timestamp := timestamp
            Payload := event.Payload
            ProcessedAt := zeroTime
            Version := 0 }
        match (Create env activityLog).2 with
        | some err => ([activityLog], some ("failed to process event: " ++ err))
        | none => ([activityLog], none)

/-- Embedding of `Handle`: the records handed to `Create` and the returned error. -/
def Handle (env : ServiceEnv) (body : List UInt8) : List ActivityLog × Option Error :=
  match env.unmarshal body with
  | Except.error err => ([], some ("failed to deserialize event: " ++ err))
  | Except.ok event =>
    match ProcessEvent env (some event) with
    | (created, some err) => (created, some ("failed to process event: " ++ err))
    | (created, none) => (created, none)

/-- The body of `handleMessage` with the call of `Handle` in place: the records handed to
`Create` and the effects on the broker and the log. -/
def handleDelivery (env : ServiceEnv) (cfg : RabbitMQ) (br : Broker) (message : Delivery) :
    List ActivityLog × List Effect :=
  ((Handle env message.Body).1, handleMessage cfg br (Handle env message.Body).2 message)

/-- The kind of a broker call. -/
inductive CallKind where
  | publish
  | ack
  | reject (requeue : Bool)
  deriving DecidableEq

/-- The retry / dead-letter decision one handling took: the kinds of its broker calls, in
order. -/
def decision : List Effect → List CallKind
  | [] => []
  | Effect.publish _ _ _ _ _ :: rest => CallKind.publish :: decision rest
  | Effect.ack _ :: rest => CallKind.ack :: decision rest
  | Effect.reject requeue :: rest => CallKind.reject requeue :: decision rest
  | _ :: rest => decision rest

/-- The event of the spec's scenario A. -/
def scenarioEvent : GenericEvent :=
  { EventID := "e1", Topic := "user.created.log", SourceService := "iam",
    Timestamp := "2024-01-01T00:00:00Z",
    Payload := some [("userId", JSONValue.str "u1")] }

/-- The event of scenario C: an empty `eventId`. -/
def emptyIdEvent : GenericEvent := { scenarioEvent with EventID := "" }

/-- The event of scenario D: a timestamp that is no date. -/
def badTimestampEvent : GenericEvent := { scenarioEvent with Timestamp := "not-a-date" }

/-- Sample answers of `time.Parse`: the timestamp of scenario A parses under the first three
layouts (to 2024-01-01 00:00:00 UTC); every other pair, "not-a-date" under each layout
among them, is answered with an error. -/
def scenarioTimeParse (layout value : String) : Option Time :=
  if value = "2024-01-01T00:00:00Z" ∧
      (layout = "2006-01-02T15:04:05Z07:00" ∨ layout = "2006-01-02T15:04:05.999999999Z07:00"
        ∨ layout = "2006-01-02T15:04:05Z") then
    some { unixNanos := 1704067200000000000 }
  else none

/-- A sample environment: every body unmarshals to the given event and `InsertOne` answers
with the given result. -/
def scenarioEnv (event : GenericEvent) (insert : Except Error (Option ObjectID)) :
    ServiceEnv :=
  { unmarshal := fun _ => Except.ok event
    timeParse := scenarioTimeParse
    now := { unixNanos := 1704067200000000000 }
    insertOne := fun _ => insert }

/-! ## The consumer manager and its goroutines

`StartAll` spawns one goroutine `startConsumer` per registered consumer and counts it in the
wait group; a successful `Start` spawns the goroutine `processMessages`, which no wait group
counts.  The goroutines are modelled by an interleaving semantics: a `Step` is one atomic
move of one goroutine (or of the broker), and a run is a list of steps.  A step that is not
enabled in the current state yields `none`. -/

/-- Where the goroutine `startConsumer` of a registered consumer is: not yet spawned;
spawned and about to call `Start`; blocked on `<-cm.ctx.Done()` after a successful `Start`;
returned, with the deferred `wg.Done()` run. -/
inductive UnitState where
  | notSpawned
  | spawned
  | waitingCtx
  | exited
  deriving DecidableEq

/-- Where the goroutine `processMessages` of a consumer is: not yet spawned; blocked in the
`select`; inside `handleMessage` for a delivery; returned. -/
inductive LoopState where
  | notSpawned
  | selecting
  | handling (message : Delivery)
  | exited
  deriving DecidableEq

/-- A registered consumer with its two goroutines and its channel of deliveries
(`messages`, with the deliveries not yet received and whether it has been closed). -/
structure Worker where
  consumer : activityLogConsumer
  unit : UnitState
  loop : LoopState
  messages : List Delivery
  messagesClosed : Bool
  deriving DecidableEq

/-- Where the caller of `StopAll` is: not called; past `cm.cancel()` and about to call
`Stop` on the consumer with index `next` (past the loop and inside `cm.wg.Wait()` when
`next` is the number of consumers); returned.  Calls of `StopAll` are taken one after the
other: a further call may begin once the previous one has returned. -/
inductive StopAllState where
  | notCalled
  | stopping (next : Nat)
  | returned
  deriving DecidableEq

/-- State of a `ConsumerManager`: the registered consumers, the counter of the wait group,
whether the context has been cancelled, whether `StartAll` has run, and the progress of
`StopAll`. -/
structure ConsumerManager where
  consumers : List Worker
  wg : Int
  cancelled : Bool
  startAllCalled : Bool
  stopAll : StopAllState
  deriving DecidableEq

/-- Embedding of `NewConsumerManager`. -/
def NewConsumerManager : ConsumerManager :=
  { consumers := [], wg := 0, cancelled := false, startAllCalled := false,
    stopAll := StopAllState.notCalled }

/-- Embedding of `RegisterConsumer`. -/
def RegisterConsumer (cm : ConsumerManager) (consumer : activityLogConsumer) :
    ConsumerManager :=
  { cm with consumers := cm.consumers ++
      [{ consumer := consumer, unit := UnitState.notSpawned, loop := LoopState.notSpawned,
         messages := [], messagesClosed := false }] }

/-- One atomic move.
* `startAll`: the loop of `StartAll` (`wg.Add(1)` and `go cm.startConsumer` per consumer);
* `runStart i env`: goroutine `startConsumer` of consumer `i` calls `Start` in environment
  `env`; on an error it returns (`wg.Done`), otherwise `processMessages` is spawned and the
  goroutine blocks on the context;
* `ctxDone i`: that goroutine receives from `cm.ctx.Done()` and returns (`wg.Done`);
* `deliver i message`: the broker puts a delivery into the channel of consumer `i`;
* `closeMessages i`: the broker library closes that channel;
* `receive i`: `processMessages` takes a delivery in its `select` and enters `handleMessage`;
* `finish i`: `handleMessage` returns (completed or timed out);
* `stopSignal i`: `processMessages` takes the closed stop channel in its `select`, returns;
* `channelClosed i`: `processMessages` finds the channel of deliveries closed, returns;
* `stopAllCancel`: `StopAll` is called, for the first time or again after an earlier call
  has returned (there is no guard), and runs `cm.cancel()`;
* `stopAllStop cancelErr`: `StopAll` calls `Stop` on the next consumer;
* `stopAllReturn`: `cm.wg.Wait()` finds the counter at zero and `StopAll` returns. -/
inductive Step where
  | startAll
  | runStart (i : Nat) (env : StartEnv)
  | ctxDone (i : Nat)
  | deliver (i : Nat) (message : Delivery)
  | closeMessages (i : Nat)
  | receive (i : Nat)
  | finish (i : Nat)
  | stopSignal (i : Nat)
  | channelClosed (i : Nat)
  | stopAllCancel
  | stopAllStop (cancelErr : Option Error)
  | stopAllReturn
  deriving DecidableEq

/-- The manager with worker `i` replaced. -/
def setWorker (cm : ConsumerManager) (i : Nat) (w : Worker) : ConsumerManager :=
  { cm with consumers := cm.consumers.set i w }

/-- Effect of one step; `none` when the step is not enabled (or `Stop` panics). -/
def step (cm : ConsumerManager) : Step → Option ConsumerManager
  | Step.startAll =>
    if cm.startAllCalled then none
    else some { cm with
      startAllCalled := true
      wg := cm.wg + cm.consumers.length
      consumers := cm.consumers.map (fun w => { w with unit := UnitState.spawned }) }
  | Step.runStart i env =>
    match cm.consumers[i]? with
    | none => none
    | some w =>
      if w.unit = UnitState.spawned then
        match Start w.consumer env with
        | (c, some _) =>
          some { setWorker cm i { w with consumer := c, unit := UnitState.exited } with
            wg := cm.wg - 1 }
        | (c, none) =>
          some (setWorker cm i
            { w with consumer := c, unit := UnitState.waitingCtx, loop := LoopState.selecting })
      else none
  | Step.ctxDone i =>
    match cm.consumers[i]? with
    | none => none
    | some w =>
      if w.unit = UnitState.waitingCtx ∧ cm.cancelled = true then
        some { setWorker cm i { w with unit := UnitState.exited } with wg := cm.wg - 1 }
      else none
  | Step.deliver i message =>
    match cm.consumers[i]? with
    | none => none
    | some w =>
      if w.loop ≠ LoopState.notSpawned ∧ w.messagesClosed = false then
        some (setWorker cm i { w with messages := w.messages ++ [message] })
      else none
  | Step.closeMessages i =>
    match cm.consumers[i]? with
    | none => none
    | some w =>
      if w.loop ≠ LoopState.notSpawned then
        some (setWorker cm i { w with messagesClosed := true })
      else none
  | Step.receive i =>
    match cm.consumers[i]? with
    | none => none
    | some w =>
      match w.loop, w.messages with
      | LoopState.selecting, message :: rest =>
        some (setWorker cm i { w with loop := LoopState.handling message, messages := rest })
      | _, _ => none
  | Step.finish i =>
    match cm.consumers[i]? with
    | none => none
    | some w =>
      match w.loop with
      | LoopState.handling _ => some (setWorker cm i { w with loop := LoopState.selecting })
      | _ => none
  | Step.stopSignal i =>
    match cm.consumers[i]? with
    | none => none
    | some w =>
      if w.loop = LoopState.selecting ∧ w.consumer.stopChannelClosed = true then
        some (setWorker cm i { w with loop := LoopState.exited })
      else none
  | Step.channelClosed i =>
    match cm.consumers[i]? with
    | none => none
    | some w =>
      if w.loop = LoopState.selecting ∧ w.messages = [] ∧ w.messagesClosed = true then
        some (setWorker cm i { w with loop := LoopState.exited })
      else none
  | Step.stopAllCancel =>
    match cm.stopAll with
    | StopAllState.stopping _ => none
    | _ => some { cm with cancelled := true, stopAll := StopAllState.stopping 0 }
  | Step.stopAllStop cancelErr =>
    match cm.stopAll with
    | StopAllState.stopping next =>
      match cm.consumers[next]? with
      | none => none
      | some w =>
        match Stop w.consumer cancelErr with
        | Except.ok c =>
          some { setWorker cm next { w with consumer := c } with
            stopAll := StopAllState.stopping (next + 1) }
        | Except.error _ => none
    | _ => none
  | Step.stopAllReturn =>
    match cm.stopAll with
    | StopAllState.stopping next =>
      if next = cm.consumers.length ∧ cm.wg = 0 then
        some { cm with stopAll := StopAllState.returned }
      else none
    | _ => none

/-- A run: the steps taken in order; `none` when one of them is not enabled. -/
def runSteps : ConsumerManager → List Step → Option ConsumerManager
  | cm, [] => some cm
  | cm, s :: rest =>
    match step cm s with
    | some cm1 => runSteps cm1 rest
    | none => none

/-- The manager of `InitConsumers`: one registered activity-log consumer. -/
def oneWorkerManager : ConsumerManager :=
  RegisterConsumer NewConsumerManager NewActivityLogConsumer

/-- A shutdown that arrives while a message is being handled: the consumer is started, a
delivery arrives and `processMessages` enters `handleMessage`; then `StopAll` cancels the
context and stops the consumer, the goroutine `startConsumer` sees the cancellation and
returns, and `cm.wg.Wait()` returns. -/
def shutdownDuringHandling : List Step :=
  [Step.startAll, Step.runStart 0 goodEnv, Step.deliver 0 freshDelivery, Step.receive 0,
   Step.stopAllCancel, Step.stopAllStop none, Step.ctxDone 0, Step.stopAllReturn]

/-! ## Basic facts about tables and machine integers -/

/-- Reading a key right after assigning it yields the assigned value. -/
theorem tableGet_tableSet_same (t : Table) (k : String) (v : FieldValue) :
    tableGet (tableSet t k v) k = some v := by
  induction t with
  | nil => simp [tableSet, tableGet]
  | cons p t ih =>
    obtain ⟨k1, v1⟩ := p
    by_cases h : k1 = k
    · simp [tableSet, tableGet, h]
    · simp [tableSet, tableGet, h, ih]

/-- Assigning one key leaves the value read under any other key unchanged. -/
theorem tableGet_tableSet_other (t : Table) (k k2 : String) (v : FieldValue) (hk : k ≠ k2) :
    tableGet (tableSet t k v) k2 = tableGet t k2 := by
  induction t with
  | nil => simp [tableSet, tableGet, hk]
  | cons p t ih =>
    obtain ⟨k1, v1⟩ := p
    by_cases h : k1 = k
    · subst h
      simp [tableSet, tableGet, hk]
    · by_cases h2 : k1 = k2
      · subst h2
        simp [tableSet, tableGet, h]
      · simp [tableSet, tableGet, h, h2, ih]

/-- The conversion to `int32` is the identity on the `int32` range. -/
theorem toInt32_val_of_range (x : Int) (hlo : -2147483648 ≤ x) (hhi : x ≤ 2147483647) :
    (toInt32 x).val = x := by
  show (x + 2147483648) % 4294967296 - 2147483648 = x
  omega

/-- No wrap-around happens inside the 64-bit range. -/
theorem wrapInt_of_range (x : Int) (hlo : -9223372036854775808 ≤ x)
    (hhi : x ≤ 9223372036854775807) : wrapInt x = x := by
  unfold wrapInt
  omega

/-- The retry count read from a delivery always fits an `int32`. -/
theorem getRetryCount_range (message : Delivery) :
    -2147483648 ≤ getRetryCount message ∧ getRetryCount message ≤ 2147483647 := by
  unfold getRetryCount
  split
  · constructor <;> decide
  · split
    · rename_i count _
      exact count.property
    · constructor <;> decide

/-- The headers `retryMessage` publishes store the truncated new count under
`x-retry-count`. -/
theorem retryHeaders_retryCount (message : Delivery) (retryCount : Int) (err : Error) :
    tableGet (retryHeaders message retryCount err) "x-retry-count"
      = some (FieldValue.int32 (toInt32 retryCount)) := by
  unfold retryHeaders
  simp only []
  rw [tableGet_tableSet_other _ _ _ _ (by decide), tableGet_tableSet_other _ _ _ _ (by decide),
    tableGet_tableSet_same]

/-- The headers `retryMessage` publishes store the delivery's routing key under
`x-original-routing-key`. -/
theorem retryHeaders_originalRoutingKey (message : Delivery) (retryCount : Int) (err : Error) :
    tableGet (retryHeaders message retryCount err) "x-original-routing-key"
      = some (FieldValue.str message.RoutingKey) := by
  unfold retryHeaders
  simp only []
  rw [tableGet_tableSet_other _ _ _ _ (by decide), tableGet_tableSet_same]

/-- While the count read is below the largest `int32`, the republished copy is read back
with the count plus one. -/
theorem getRetryCount_redeliver (cfg : RabbitMQ) (message : Delivery) (err : Error)
    (key : String) (h : getRetryCount message < 2147483647) :
    getRetryCount (redeliver key (retryPublishing cfg message err))
      = getRetryCount message + 1 := by
  have hr := getRetryCount_range message
  have hw : wrapInt (getRetryCount message + 1) = getRetryCount message + 1 :=
    wrapInt_of_range _ (by omega) (by omega)
  have ht : (toInt32 (getRetryCount message + 1)).val = getRetryCount message + 1 :=
    toInt32_val_of_range _ (by omega) (by omega)
  show (match tableGet (retryHeaders message (wrapInt (getRetryCount message + 1)) err)
      "x-retry-count" with
    | some (FieldValue.int32 count) => count.val
    | _ => 0) = getRetryCount message + 1
  rw [retryHeaders_retryCount, hw]
  exact ht

/-! ## The retry decision -/

/-- C2: `shouldRetry` returns true if and only if the retry count read by `getRetryCount`
is strictly less than the configured `RetryAttempts`, for every delivery and every
configuration. -/
theorem shouldRetry_iff_lt (cfg : RabbitMQ) (message : Delivery) :
    shouldRetry cfg message = true ↔ getRetryCount message < cfg.RetryAttempts := by
  simp [shouldRetry]

/-! ## Broker calls of one handling -/

/-- C6: when `Handle` succeeds, the only broker call `handleMessage` makes is one `Ack`
(of this delivery alone), whatever the headers and whatever `Ack` returns: no `Publish`
and no `Reject`. -/
theorem handleMessage_success_acks_once (cfg : RabbitMQ) (br : Broker) (message : Delivery) :
    brokerCalls (handleMessage cfg br none message) = [Effect.ack false] := by
  unfold handleMessage
  cases br.ackErr <;> simp [brokerCalls]

/-- C7: when `Handle` fails, the delivery is retry-eligible and `Publish` succeeds,
`handleMessage` makes exactly two broker calls, in this order: one `Publish` to the
configured exchange under the delivery's own routing key, of a message with the delivery's
body, and one `Ack` of the original delivery; there is no `Reject`. -/
theorem handleMessage_retry_publishes_then_acks (cfg : RabbitMQ) (br : Broker)
    (message : Delivery) (err : Error)
    (hretry : shouldRetry cfg message = true) (hpub : br.publishErr = none) :
    brokerCalls (handleMessage cfg br (some err) message)
        = [Effect.publish cfg.IAMExchange message.RoutingKey false false
            (retryPublishing cfg message err), Effect.ack false]
      ∧ (retryPublishing cfg message err).Body = message.Body := by
  constructor
  · unfold handleMessage retryMessage
    simp only [hretry, hpub, if_true]
    cases br.ackErr <;> simp [brokerCalls]
  · rfl

/-- Instance of `handleMessage_retry_publishes_then_acks`: the default limit and a delivery
on its second hop. -/
theorem handleMessage_retry_publishes_then_acks_witness :
    shouldRetry defaultConfig retriedDelivery = true ∧
    brokerCalls (handleMessage defaultConfig okBroker (some "failed to process event")
        retriedDelivery)
      = [Effect.publish "iam_events_topic" "user.created.log" false false
          (retryPublishing defaultConfig retriedDelivery "failed to process event"),
         Effect.ack false] :=
  ⟨by decide,
   (handleMessage_retry_publishes_then_acks defaultConfig okBroker retriedDelivery
      "failed to process event" (by decide) rfl).1⟩

/-- C8: when `Handle` fails and the retry count is not less than `RetryAttempts`, the only
broker call `handleMessage` makes is one `Reject` with requeue = false: no `Publish` and no
`Ack`. -/
theorem handleMessage_exhausted_rejects_once (cfg : RabbitMQ) (br : Broker)
    (message : Delivery) (err : Error)
    (hexhausted : ¬ getRetryCount message < cfg.RetryAttempts) :
    brokerCalls (handleMessage cfg br (some err) message) = [Effect.reject false] := by
  have hno : shouldRetry cfg message = false := by
    simpa [shouldRetry] using hexhausted
  unfold handleMessage rejectMessage logFailedMessage
  simp only [hno]
  cases br.rejectErr <;> simp [brokerCalls]

/-- Instance of `handleMessage_exhausted_rejects_once`: the default limit and a delivery
whose count is 3. -/
theorem handleMessage_exhausted_rejects_once_witness :
    ¬ getRetryCount exhaustedDelivery < defaultConfig.RetryAttempts ∧
    brokerCalls (handleMessage defaultConfig okBroker (some "failed to process event")
        exhaustedDelivery) = [Effect.reject false] :=
  ⟨by decide,
   handleMessage_exhausted_rejects_once defaultConfig okBroker exhaustedDelivery
     "failed to process event" (by decide)⟩

/-! ## Reading the retry count -/

/-- C10 (counterexample): a delivery whose `x-retry-count` header holds the integer 5 as an
`int64` is read as retry count 0, not 5. -/
theorem getRetryCount_int64_header_reads_zero :
    tableGet [("x-retry-count", FieldValue.int64 5)] "x-retry-count" = some (FieldValue.int64 5)
      ∧ getRetryCount int64CountDelivery = 0 := by
  decide

/-- C10 (amended): `getRetryCount` returns 0 when the headers are nil or lack
`x-retry-count`, returns n when the header holds the `int32` value n, and returns 0 when
the header holds a value of any other dynamic type. -/
theorem getRetryCount_cases (message : Delivery) :
    (message.Headers = none → getRetryCount message = 0)
    ∧ (∀ headers, message.Headers = some headers →
        tableGet headers "x-retry-count" = none → getRetryCount message = 0)
    ∧ (∀ headers (n : GoInt32), message.Headers = some headers →
        tableGet headers "x-retry-count" = some (FieldValue.int32 n) →
        getRetryCount message = n.val)
    ∧ (∀ headers v, message.Headers = some headers →
        tableGet headers "x-retry-count" = some v → (∀ n, v ≠ FieldValue.int32 n) →
        getRetryCount message = 0) := by
  refine ⟨?_, ?_, ?_, ?_⟩
  · intro h
    simp [getRetryCount, h]
  · intro headers h hget
    simp [getRetryCount, h, hget]
  · intro headers n h hget
    simp [getRetryCount, h, hget]
  · intro headers v h hget hv
    cases v with
    | int32 n => exact absurd rfl (hv n)
    | _ => simp [getRetryCount, h, hget]

/-- Instances of the four cases of `getRetryCount_cases`: nil headers, a fresh table
without the header, an `int32` header, an `int64` header. -/
theorem getRetryCount_cases_witness :
    getRetryCount freshDelivery = 0
    ∧ getRetryCount { freshDelivery with Headers := some [] } = 0
    ∧ getRetryCount retriedDelivery = 2
    ∧ getRetryCount int64CountDelivery = 0 :=
  ⟨(getRetryCount_cases freshDelivery).1 rfl,
   (getRetryCount_cases { freshDelivery with Headers := some [] }).2.1 [] rfl rfl,
   (getRetryCount_cases retriedDelivery).2.2.1 _ ⟨2, by decide⟩ rfl rfl,
   (getRetryCount_cases int64CountDelivery).2.2.2 _ (FieldValue.int64 5) rfl rfl
     (fun _ h => FieldValue.noConfusion h)⟩

/-! ## Headers of the republished message -/

/-- C5 (counterexample): with `RetryAttempts` = 2147483648 a failed delivery whose
`x-retry-count` is 2147483647 is retry-eligible, and the republished message carries
`x-retry-count` = -2147483648, not 2147483648: the new count is truncated to 32 bits. -/
theorem retry_count_wraps_at_int32_max :
    shouldRetry hugeLimitConfig maxCountDelivery = true
      ∧ getRetryCount maxCountDelivery = 2147483647
      ∧ publishedRetryCounts
          (handleMessage hugeLimitConfig okBroker (some "failed to process event")
            maxCountDelivery) = [some (-2147483648)] := by
  decide

/-- C5 (amended): for every retry-eligible failed delivery whose retry count is below
2147483647 (in particular whenever `RetryAttempts` fits an `int32`), the message
`handleMessage` republishes carries `x-retry-count` = retry count + 1, and the republished
copy is read back with that count. -/
theorem retry_count_increases_by_one (cfg : RabbitMQ) (br : Broker) (message : Delivery)
    (err : Error) (hretry : shouldRetry cfg message = true)
    (hbelow : getRetryCount message < 2147483647) :
    publishedRetryCounts (handleMessage cfg br (some err) message)
        = [some (getRetryCount message + 1)]
      ∧ (published (handleMessage cfg br (some err) message)).map
          (fun p => getRetryCount (redeliver p.1 p.2)) = some (getRetryCount message + 1) := by
  have hread := getRetryCount_redeliver cfg message err message.RoutingKey hbelow
  have hhdr : (match tableGet (retryPublishing cfg message err).Headers "x-retry-count" with
      | some (FieldValue.int32 v) => some v.val
      | _ => none) = some (getRetryCount message + 1) := by
    have hr := getRetryCount_range message
    show (match tableGet (retryHeaders message (wrapInt (getRetryCount message + 1)) err)
        "x-retry-count" with
      | some (FieldValue.int32 v) => some v.val
      | _ => none) = some (getRetryCount message + 1)
    rw [retryHeaders_retryCount, wrapInt_of_range _ (by omega) (by omega)]
    exact congrArg some (toInt32_val_of_range _ (by omega) (by omega))
  constructor
  · unfold handleMessage retryMessage
    simp only [hretry, if_true]
    cases hp : br.publishErr <;> cases ha : br.ackErr <;> cases hj : br.rejectErr <;>
      simp [publishedRetryCounts, rejectMessage, logFailedMessage, hhdr, hj]
  · unfold handleMessage retryMessage
    simp only [hretry, if_true]
    simp [published, hread]

/-- Instance of `retry_count_increases_by_one`: the default limit and a delivery on its
second hop. -/
theorem retry_count_increases_by_one_witness :
    shouldRetry defaultConfig retriedDelivery = true
      ∧ getRetryCount retriedDelivery = 2
      ∧ publishedRetryCounts
          (handleMessage defaultConfig okBroker (some "failed to process event")
            retriedDelivery) = [some (getRetryCount retriedDelivery + 1)] :=
  ⟨by decide, by decide,
   (retry_count_increases_by_one defaultConfig okBroker retriedDelivery
      "failed to process event" (by decide) (by decide)).1⟩

/-- C4 (counterexample): a failed delivery whose headers already hold
`x-original-routing-key` = "workspace.created.log" and whose current routing key is
"user.created.log" is republished with `x-original-routing-key` = "user.created.log". -/
theorem original_routing_key_overwritten :
    (reroutedDelivery.Headers.bind (fun h => tableGet h "x-original-routing-key"))
        = some (FieldValue.str "workspace.created.log")
      ∧ publishedHeader "x-original-routing-key"
          (retryMessage defaultConfig okBroker reroutedDelivery "failed to process event")
        = [some (FieldValue.str "user.created.log")] := by
  decide

/-- C4 (amended): the message republished by `retryMessage` always carries
`x-original-routing-key` equal to the delivery's current routing key, because the header is
written on every retry; the value is therefore unchanged across the worker's own hops, where
the republished copy is delivered under the routing key it was published with. -/
theorem original_routing_key_is_current_key (cfg : RabbitMQ) (br : Broker)
    (message : Delivery) (err err2 : Error) :
    publishedHeader "x-original-routing-key" (retryMessage cfg br message err)
        = [some (FieldValue.str message.RoutingKey)]
      ∧ publishedHeader "x-original-routing-key"
          (retryMessage cfg br
            (redeliver message.RoutingKey (retryPublishing cfg message err)) err2)
        = [tableGet (retryPublishing cfg message err).Headers "x-original-routing-key"] := by
  have key : ∀ (m : Delivery) (e : Error),
      publishedHeader "x-original-routing-key" (retryMessage cfg br m e)
        = [some (FieldValue.str m.RoutingKey)] := by
    intro m e
    have h := retryHeaders_originalRoutingKey m (wrapInt (getRetryCount m + 1)) e
    unfold retryMessage
    cases hp : br.publishErr <;> cases ha : br.ackErr <;> cases hj : br.rejectErr <;>
      simp [publishedHeader, rejectMessage, logFailedMessage, retryPublishing, h, hj]
  refine ⟨key message err, ?_⟩
  rw [key]
  have h := retryHeaders_originalRoutingKey message (wrapInt (getRetryCount message + 1)) err
  simp [retryPublishing, redeliver, h]

/-! ## A failed republish -/

/-- When the delivery is retry-eligible and `Publish` fails, the error printed by
`rejectMessage` and recorded by `logFailedMessage` is the error `Publish` returned. -/
theorem publish_failure_rejects_with_publish_error (cfg : RabbitMQ) (br : Broker)
    (message : Delivery) (err publishErr : Error) (hretry : shouldRetry cfg message = true)
    (hpub : br.publishErr = some publishErr) :
    rejectingErrors (handleMessage cfg br (some err) message) = [publishErr]
      ∧ (failedLogs (handleMessage cfg br (some err) message)).map Prod.fst = [publishErr] := by
  unfold handleMessage retryMessage rejectMessage logFailedMessage
  simp only [hretry, hpub, if_true]
  cases br.rejectErr <;> simp [rejectingErrors, failedLogs]

/-- C3 (failing input): `Handle` fails with "failed to process event: database down" on a
first delivery, and `Publish` fails with "channel/connection is not open".  The error
`rejectMessage` prints and `logFailedMessage` records is the publish error; the processing
error appears in neither. -/
theorem publish_failure_loses_processing_error :
    rejectingErrors
        (handleMessage defaultConfig publishDownBroker
          (some "failed to process event: database down") freshDelivery)
        = ["channel/connection is not open"]
      ∧ (failedLogs
          (handleMessage defaultConfig publishDownBroker
            (some "failed to process event: database down") freshDelivery)).map Prod.fst
        = ["channel/connection is not open"] := by
  decide

/-! ## Worker lifecycle -/

/-- `Start` returns an error exactly in the environments described by `StartEnv.fails`. -/
theorem Start_error_iff_fails (c : activityLogConsumer) (env : StartEnv) :
    (Start c env).2.isSome = env.fails := by
  unfold Start StartEnv.fails
  cases env.ActivityLogRabbitCh <;> cases env.qosErr <;> cases env.consumeErr <;> simp

/-- A failing `Start` changes neither the running flag nor the stop channel. -/
theorem Start_fails_keeps_flags (c : activityLogConsumer) (env : StartEnv)
    (h : env.fails = true) :
    (Start c env).1.isRunning = c.isRunning
      ∧ (Start c env).1.stopChannelClosed = c.stopChannelClosed := by
  unfold Start
  unfold StartEnv.fails at h
  cases h1 : env.ActivityLogRabbitCh <;> cases h2 : env.qosErr <;> cases h3 : env.consumeErr <;>
    simp_all

/-- From a stopped state, calls that are not successful `Start`s never panic and leave the
worker stopped, with the stop channel as it was. -/
theorem runCalls_stays_stopped (calls : List Call) :
    ∀ c : activityLogConsumer, c.isRunning = false →
      (∀ call ∈ calls, call.noRestart = true) →
      ∃ c2, runCalls c calls = Except.ok c2 ∧ c2.isRunning = false
        ∧ c2.stopChannelClosed = c.stopChannelClosed := by
  induction calls with
  | nil =>
    intro c hc _
    exact ⟨c, rfl, hc, rfl⟩
  | cons call rest ih =>
    intro c hc hall
    have hcall : call.noRestart = true := hall call (List.mem_cons_self _ _)
    have hrest : ∀ x ∈ rest, x.noRestart = true :=
      fun x hx => hall x (List.mem_cons_of_mem _ hx)
    cases call with
    | start env =>
      have hk := Start_fails_keeps_flags c env hcall
      obtain ⟨c2, h1, h2, h3⟩ := ih (Start c env).1 (hk.1.trans hc) hrest
      exact ⟨c2, by simpa [runCalls, applyCall] using h1, h2, h3.trans hk.2⟩
    | stop cancelErr =>
      obtain ⟨c2, h1, h2, h3⟩ := ih c hc hrest
      exact ⟨c2, by simpa [runCalls, applyCall, Stop, hc] using h1, h2, h3⟩

/-- C9 (counterexample): a new worker is started, stopped and started again in an
environment where `Start` succeeds: after the `Stop` it is not running, after the second
`Start` it is running again, and a further `Stop` panics because it closes the stop channel
a second time. -/
theorem stopped_worker_restarts :
    (runCalls NewActivityLogConsumer [Call.start goodEnv]).toOption.map
        (fun c => c.isRunning) = some true
      ∧ (runCalls NewActivityLogConsumer [Call.start goodEnv, Call.stop none]).toOption.map
        (fun c => (c.isRunning, c.stopChannelClosed)) = some (false, true)
      ∧ (runCalls NewActivityLogConsumer
          [Call.start goodEnv, Call.stop none, Call.start goodEnv]).toOption.map
        (fun c => c.isRunning) = some true
      ∧ (runCalls NewActivityLogConsumer
          [Call.start goodEnv, Call.stop none, Call.start goodEnv, Call.stop none]).toOption
        = none := by
  decide

/-- C9 (amended): once `Stop` has been applied to a running worker that has not been stopped
before (its stop channel is still open), the worker stays stopped through every later
sequence of calls in which no `Start` succeeds: after each prefix of the sequence
`isRunning` is false, the stop channel has been closed once and no call panicked (so no
later `Stop` closes it again). -/
theorem stopped_until_successful_start (c : activityLogConsumer) (cancelErr : Option Error)
    (calls : List Call) (hrun : c.isRunning = true) (hopen : c.stopChannelClosed = false)
    (hcalls : ∀ call ∈ calls, call.noRestart = true) :
    ∃ c1, Stop c cancelErr = Except.ok c1 ∧ c1.isRunning = false
      ∧ c1.stopChannelClosed = true
      ∧ ∀ n, ∃ c2, runCalls c1 (calls.take n) = Except.ok c2 ∧ c2.isRunning = false
          ∧ c2.stopChannelClosed = true := by
  refine ⟨{ c with isRunning := false, stopChannelClosed := true }, ?_, rfl, rfl, ?_⟩
  · simp [Stop, hrun, hopen]
  · intro n
    obtain ⟨c2, h1, h2, h3⟩ :=
      runCalls_stays_stopped (calls.take n)
        { c with isRunning := false, stopChannelClosed := true } rfl
        (fun x hx => hcalls x (List.mem_of_mem_take hx))
    exact ⟨c2, h1, h2, h3⟩

/-- Instance of `stopped_until_successful_start`: a started worker is stopped, then started
with a nil global channel, then stopped twice more. -/
theorem stopped_until_successful_start_witness :
    runningWorker.isRunning = true ∧
    ∃ c1, Stop runningWorker none = Except.ok c1 ∧ c1.isRunning = false
      ∧ c1.stopChannelClosed = true
      ∧ ∀ n, ∃ c2,
          runCalls c1 ([Call.start noChannelEnv, Call.stop none, Call.stop none].take n)
            = Except.ok c2
          ∧ c2.isRunning = false ∧ c2.stopChannelClosed = true :=
  ⟨by decide,
   stopped_until_successful_start runningWorker none
     [Call.start noChannelEnv, Call.stop none, Call.stop none] (by decide) (by decide)
     (by decide)⟩

/-! ## A message that fails on every delivery -/

/-- A delivery without `x-retry-count` header is read as retry count 0. -/
theorem getRetryCount_of_noRetryHeader (message : Delivery)
    (h : noRetryHeader message = true) : getRetryCount message = 0 := by
  unfold noRetryHeader at h
  unfold getRetryCount
  cases hh : message.Headers with
  | none => rfl
  | some headers =>
    rw [hh] at h
    cases hg : tableGet headers "x-retry-count" with
    | none => simp [hg]
    | some v => simp [hg] at h

/-- A retry-eligible failed handling with a working `Publish` republishes the copy built by
`retryPublishing` under the delivery's routing key. -/
theorem published_of_retry (cfg : RabbitMQ) (br : Broker) (message : Delivery) (err : Error)
    (hretry : shouldRetry cfg message = true) :
    published (handleMessage cfg br (some err) message)
      = some (message.RoutingKey, retryPublishing cfg message err) := by
  unfold handleMessage retryMessage
  simp [hretry, published]

/-- Summary of a retry-eligible failed handling with a working `Publish`. -/
theorem summary_of_retry (cfg : RabbitMQ) (br : Broker) (message : Delivery) (err : Error)
    (hretry : shouldRetry cfg message = true) (hpub : br.publishErr = none)
    (hbelow : getRetryCount message < 2147483647) :
    summary (handleMessage cfg br (some err) message)
      = republishedHop (getRetryCount message + 1) := by
  have hr := getRetryCount_range message
  have hhdr : (match tableGet (retryPublishing cfg message err).Headers "x-retry-count" with
      | some (FieldValue.int32 v) => some v.val
      | _ => none) = some (getRetryCount message + 1) := by
    show (match tableGet (retryHeaders message (wrapInt (getRetryCount message + 1)) err)
        "x-retry-count" with
      | some (FieldValue.int32 v) => some v.val
      | _ => none) = some (getRetryCount message + 1)
    rw [retryHeaders_retryCount, wrapInt_of_range _ (by omega) (by omega)]
    exact congrArg some (toInt32_val_of_range _ (by omega) (by omega))
  unfold summary handleMessage retryMessage republishedHop
  simp only [hretry, hpub, if_true]
  cases br.ackErr <;> simp [publishedRetryCounts, acks, rejects, failedLogs, hhdr]

/-- A failed handling of a delivery that is not retry-eligible publishes nothing, and its
summary is a rejection that logged the count read. -/
theorem summary_of_exhausted (cfg : RabbitMQ) (br : Broker) (message : Delivery) (err : Error)
    (hno : shouldRetry cfg message = false) :
    published (handleMessage cfg br (some err) message) = none
      ∧ summary (handleMessage cfg br (some err) message)
        = rejectedHop (getRetryCount message) := by
  unfold summary handleMessage rejectMessage logFailedMessage rejectedHop
  simp only [hno]
  cases br.rejectErr <;>
    simp [published, publishedRetryCounts, acks, rejects, failedLogs]

/-- The run of an always-failing message from a delivery read with retry count `k`, when
`n` more retries are allowed: `n` republishing hops with counts `k+1 .. k+n`, then the
rejection. -/
theorem failingRun_from_count (cfg : RabbitMQ) (br : Broker) (hpub : br.publishErr = none)
    (hmax : cfg.RetryAttempts ≤ 2147483647) :
    ∀ (n : Nat) (k : Int) (errs : Nat → Error) (message : Delivery) (fuel : Nat),
      getRetryCount message = k → k + n = cfg.RetryAttempts → n + 1 ≤ fuel →
      (failingRun cfg br errs fuel message).map (List.map summary)
        = some ((List.range n).map (fun (i : Nat) => republishedHop (k + 1 + (i : Int)))
            ++ [rejectedHop cfg.RetryAttempts]) := by
  intro n
  induction n with
  | zero =>
    intro k errs message fuel hk hsum hfuel
    obtain ⟨f, rfl⟩ : ∃ f, fuel = f + 1 := ⟨fuel - 1, by omega⟩
    have hno : shouldRetry cfg message = false := by
      simp [shouldRetry]
      omega
    obtain ⟨h1, h2⟩ := summary_of_exhausted cfg br message (errs 0) hno
    have hcount : getRetryCount message = cfg.RetryAttempts := by omega
    simp [failingRun, h1, h2, hcount]
  | succ n ih =>
    intro k errs message fuel hk hsum hfuel
    obtain ⟨f, rfl⟩ : ∃ f, fuel = f + 1 := ⟨fuel - 1, by omega⟩
    have hretry : shouldRetry cfg message = true := by
      simp [shouldRetry]
      omega
    have hbelow : getRetryCount message < 2147483647 := by omega
    have h1 := published_of_retry cfg br message (errs 0) hretry
    have h2 := summary_of_retry cfg br message (errs 0) hretry hpub hbelow
    have hnext := getRetryCount_redeliver cfg message (errs 0) message.RoutingKey hbelow
    have hrec := ih (k + 1) (fun j => errs (j + 1))
      (redeliver message.RoutingKey (retryPublishing cfg message (errs 0))) f
      (by rw [hnext, hk]) (by push_cast at hsum; omega) (by omega)
    have hrange : (List.range (n + 1)).map (fun (i : Nat) => republishedHop (k + 1 + (i : Int)))
        = republishedHop (k + 1)
          :: (List.range n).map (fun (i : Nat) => republishedHop (k + 1 + 1 + (i : Int))) := by
      rw [List.range_succ_eq_map]
      simp only [List.map_cons, List.map_map]
      congr 1
      · simp
      · apply List.map_congr_left
        intro i _
        simp only [Function.comp]
        congr 1
        push_cast
        omega
    rw [hrange]
    simp only [failingRun, h1, Option.map_map]
    cases hrun : failingRun cfg br (fun j => errs (j + 1)) f
        (redeliver message.RoutingKey (retryPublishing cfg message (errs 0))) with
    | none => simp [hrun] at hrec
    | some later =>
      simp only [hrun, Option.map_some'] at hrec
      simp only [Option.map_some', Function.comp, List.map_cons, h2, hk]
      rw [Option.some.injEq] at hrec
      rw [hrec]
      rfl

/-- C1 (counterexample): with `RetryAttempts` = 3 a message that starts without retry header
and fails on every delivery is republished three times, with `x-retry-count` 1, 2 and 3;
its third failure is republished, not rejected, and the rejection comes with the fourth
failure, logging retry count 3. -/
theorem three_retries_then_reject_on_fourth_failure :
    noRetryHeader freshDelivery = true
      ∧ (failingRun defaultConfig okBroker (fun _ => "failed to process event") 10
          freshDelivery).map (List.map summary)
        = some [republishedHop 1, republishedHop 2, republishedHop 3, rejectedHop 3] := by
  decide

/-- C1 (amended): for every `RetryAttempts` = m with 0 ≤ m ≤ 2147483647, a message that
starts without retry header and fails on every delivery, with every republish succeeding
and every republished copy redelivered with the headers it was published with, is
republished exactly m times, with `x-retry-count` 1, ..., m, each original acked, and is
rejected without requeue on its (m+1)-th failure with the retry count read as m; it is
never handled an (m+2)-th time. -/
theorem failingRun_retries_then_rejects (cfg : RabbitMQ) (br : Broker) (errs : Nat → Error)
    (message : Delivery) (fuel m : Nat) (hm : cfg.RetryAttempts = m) (hmax : m ≤ 2147483647)
    (hfresh : noRetryHeader message = true) (hpub : br.publishErr = none)
    (hfuel : m + 1 ≤ fuel) :
    (failingRun cfg br errs fuel message).map (List.map summary)
      = some ((List.range m).map (fun (i : Nat) => republishedHop ((i : Int) + 1))
          ++ [rejectedHop m]) := by
  have h0 := getRetryCount_of_noRetryHeader message hfresh
  have h := failingRun_from_count cfg br hpub (by rw [hm]; exact_mod_cast hmax) m 0 errs
    message fuel h0 (by rw [hm]; simp) hfuel
  rw [h, hm]
  congr 2
  apply List.map_congr_left
  intro i _
  congr 1
  omega

/-- Instance of `failingRun_retries_then_rejects` at the default limit of three. -/
theorem failingRun_retries_then_rejects_witness :
    noRetryHeader freshDelivery = true ∧
    (failingRun defaultConfig okBroker (fun _ => "failed to process event") 4
        freshDelivery).map (List.map summary)
      = some ((List.range 3).map (fun (i : Nat) => republishedHop ((i : Int) + 1))
          ++ [rejectedHop (3 : Nat)]) :=
  ⟨by decide,
   failingRun_retries_then_rejects defaultConfig okBroker (fun _ => "failed to process event")
     freshDelivery 4 3 rfl (by decide) (by decide) rfl (by decide)⟩

/-! ## Expiration of the republished message -/

/-- The decimal digit characters are digits and carry their value. -/
theorem digitChar_decimal :
    ∀ k, k < 10 → (Nat.digitChar k).isDigit = true ∧ (Nat.digitChar k).toNat - 48 = k := by
  decide

/-- With enough fuel, `Nat.toDigitsCore 10` puts in front of the accumulator a non-empty
list of digit characters whose decimal value is the number. -/
theorem toDigitsCore_decimal :
    ∀ (fuel n : Nat) (ds : List Char), n < fuel →
      ∃ l : List Char, Nat.toDigitsCore 10 fuel n ds = l ++ ds ∧ l ≠ []
        ∧ l.all Char.isDigit = true
        ∧ l.foldl (fun a c => a * 10 + (c.toNat - 48)) 0 = n := by
  intro fuel
  induction fuel with
  | zero => intro n ds h; omega
  | succ fuel ih =>
    intro n ds h
    have hd := digitChar_decimal (n % 10) (Nat.mod_lt _ (by decide))
    by_cases h0 : n / 10 = 0
    · refine ⟨[Nat.digitChar (n % 10)], ?_, by simp, ?_, ?_⟩
      · simp [Nat.toDigitsCore, h0]
      · simp [hd.1]
      · simp only [List.foldl]
        rw [hd.2]
        omega
    · obtain ⟨l, h1, _, h3, h4⟩ := ih (n / 10) (Nat.digitChar (n % 10) :: ds) (by omega)
      refine ⟨l ++ [Nat.digitChar (n % 10)], ?_, by simp, ?_, ?_⟩
      · simp [Nat.toDigitsCore, h0, h1]
      · simp [List.all_append, h3, hd.1]
      · rw [List.foldl_append, h4]
        simp only [List.foldl]
        rw [hd.2]
        omega

/-- Reading the decimal text of a natural number followed by "000" gives the number times
1000. -/
theorem toNat_repr_append_000 (n : Nat) :
    (Nat.repr n ++ "000").toNat? = some (n * 1000) := by
  obtain ⟨l, h1, h2, h3, h4⟩ := toDigitsCore_decimal (n + 1) n [] (by omega)
  have hdata : (Nat.repr n ++ "000").data = l ++ ['0', '0', '0'] := by
    simp [Nat.repr, Nat.toDigits, h1, List.asString]
  have hne : (Nat.repr n ++ "000").isEmpty = false := by
    cases hb : (Nat.repr n ++ "000").isEmpty with
    | false => rfl
    | true =>
      have := (String.isEmpty_iff _).1 hb
      rw [this] at hdata
      simp at hdata
  unfold String.toNat? String.isNat
  rw [String.all_eq, String.foldl_eq, hdata, hne]
  have hall : (l ++ ['0', '0', '0']).all (fun c => c.isDigit) = true := by
    rw [List.all_append]
    simp only [Bool.and_eq_true]
    refine ⟨?_, by decide⟩
    simpa using h3
  have hfold : ∀ a : Nat, List.foldl (fun n c => n * 10 + (c.toNat - '0'.toNat)) a l
      = List.foldl (fun a c => a * 10 + (c.toNat - 48)) a l := fun _ => rfl
  simp only [hall, Bool.not_false, Bool.and_self, if_true, List.foldl_append, hfold, h4]
  simp [List.foldl]
  omega

/-- C11: for every non-negative `RetryDelaySeconds` d, every delivery (whatever its retry
count) and every error, the `Expiration` of the message `retryMessage` publishes, read as a
decimal number, is d * 1000; it is the same string for every other delivery and error. -/
theorem expiration_is_delay_in_milliseconds (cfg : RabbitMQ) (br : Broker)
    (message : Delivery) (err : Error) (hd : 0 ≤ cfg.RetryDelaySeconds) :
    (publishedExpirations (retryMessage cfg br message err)).map
        (fun s => s.toNat?.map Int.ofNat) = [some (cfg.RetryDelaySeconds * 1000)]
      ∧ ∀ (message2 : Delivery) (err2 : Error),
          publishedExpirations (retryMessage cfg br message2 err2)
            = publishedExpirations (retryMessage cfg br message err) := by
  have hexp : ∀ (m : Delivery) (e : Error),
      publishedExpirations (retryMessage cfg br m e)
        = [toString cfg.RetryDelaySeconds ++ "000"] := by
    intro m e
    unfold retryMessage
    cases hp : br.publishErr <;> cases ha : br.ackErr <;> cases hj : br.rejectErr <;>
      simp [publishedExpirations, rejectMessage, logFailedMessage, retryPublishing, hj]
  refine ⟨?_, fun m2 e2 => by rw [hexp, hexp]⟩
  obtain ⟨n, hn⟩ := Int.eq_ofNat_of_zero_le hd
  rw [hexp, hn]
  have hs : toString (n : Int) = Nat.repr n := rfl
  simp only [List.map_cons, List.map_nil, hs, toNat_repr_append_000, Option.map_some']
  congr 2

/-- Instance of `expiration_is_delay_in_milliseconds`: the default delay of five seconds
gives the expiration "5000". -/
theorem expiration_is_delay_in_milliseconds_witness :
    (0 : Int) ≤ defaultConfig.RetryDelaySeconds
      ∧ publishedExpirations
          (retryMessage defaultConfig okBroker retriedDelivery "failed to process event")
        = ["5000"]
      ∧ (publishedExpirations
          (retryMessage defaultConfig okBroker retriedDelivery "failed to process event")).map
          (fun s => s.toNat?.map Int.ofNat) = [some (defaultConfig.RetryDelaySeconds * 1000)] :=
  ⟨by decide, by decide,
   (expiration_is_delay_in_milliseconds defaultConfig okBroker retriedDelivery
      "failed to process event" (by decide)).1⟩

/-! ## Validation and the processing pipeline -/

/-- C12: `ValidateEventStructure` returns nil if and only if the event is non-nil and its
`EventID`, `Topic`, `SourceService` and `Timestamp` are all non-empty; replacing the payload
by any other (nil, empty or populated) never changes the result. -/
theorem ValidateEventStructure_nil_iff (event : Option GenericEvent) :
    (ValidateEventStructure event = none ↔
      ∃ e, event = some e ∧ e.EventID ≠ "" ∧ e.Topic ≠ "" ∧ e.SourceService ≠ ""
        ∧ e.Timestamp ≠ "")
    ∧ ∀ (e : GenericEvent) (payload : Option (List (String × JSONValue))),
        ValidateEventStructure (some { e with Payload := payload })
          = ValidateEventStructure (some e) := by
  refine ⟨?_, fun e payload => rfl⟩
  cases event with
  | none => simp [ValidateEventStructure]
  | some e =>
    unfold ValidateEventStructure
    by_cases h1 : e.EventID = "" <;> by_cases h2 : e.Topic = "" <;>
      by_cases h3 : e.SourceService = "" <;> by_cases h4 : e.Timestamp = "" <;>
      simp [h1, h2, h3, h4]

/-- When the loop of `parseTimestamp` succeeds, one of the layouts parsed the value. -/
theorem parseWithFormats_some (timeParse : String → String → Option Time) (value : String)
    (formats : List String) (t : Time)
    (h : parseWithFormats timeParse value formats = some t) :
    ∃ f ∈ formats, timeParse f value = some t := by
  induction formats with
  | nil => simp [parseWithFormats] at h
  | cons f rest ih =>
    unfold parseWithFormats at h
    cases hf : timeParse f value with
    | some t2 =>
      rw [hf] at h
      exact ⟨f, List.mem_cons_self _ _, by rw [hf]; exact h⟩
    | none =>
      rw [hf] at h
      obtain ⟨g, hg, hgt⟩ := ih h
      exact ⟨g, List.mem_cons_of_mem _ hg, hgt⟩

/-- When no layout parses the value, the loop of `parseTimestamp` fails. -/
theorem parseWithFormats_none (timeParse : String → String → Option Time) (value : String)
    (formats : List String) (h : ∀ f ∈ formats, timeParse f value = none) :
    parseWithFormats timeParse value formats = none := by
  induction formats with
  | nil => rfl
  | cons f rest ih =>
    unfold parseWithFormats
    rw [h f (List.mem_cons_self _ _)]
    exact ih (fun g hg => h g (List.mem_cons_of_mem _ hg))

/-- The kinds of the broker calls of a failed handling do not depend on the error. -/
theorem decision_independent_of_error (cfg : RabbitMQ) (br : Broker) (message : Delivery)
    (e1 e2 : Error) :
    decision (handleMessage cfg br (some e1) message)
      = decision (handleMessage cfg br (some e2) message) := by
  unfold handleMessage retryMessage rejectMessage logFailedMessage
  cases shouldRetry cfg message <;> cases br.publishErr <;> cases br.ackErr <;>
    cases br.rejectErr <;> simp [decision]

/-- C13: `ProcessEvent` hands a record to `Create` only when the event is structurally
valid and one of the five layouts parses its timestamp; for an event with an empty required
field, or with a timestamp no layout parses, it returns a non-nil error and calls `Create`
not at all; and the retry / dead-letter decision `handleMessage` then takes is the one it
takes for any other error, a persistence failure included. -/
theorem ProcessEvent_creates_only_valid_parsed (env : ServiceEnv) (event : GenericEvent) :
    ((ProcessEvent env (some event)).1 ≠ [] →
        ValidateEventStructure (some event) = none
          ∧ ∃ f ∈ timestampFormats, (env.timeParse f event.Timestamp).isSome = true)
    ∧ ((event.EventID = "" ∨ event.Topic = "" ∨ event.SourceService = ""
          ∨ event.Timestamp = "" ∨ ∀ f ∈ timestampFormats, env.timeParse f event.Timestamp = none) →
        (ProcessEvent env (some event)).1 = [] ∧ (ProcessEvent env (some event)).2 ≠ none
          ∧ ∀ (cfg : RabbitMQ) (br : Broker) (message : Delivery) (persistenceErr : Error),
              env.unmarshal message.Body = Except.ok event →
              (handleDelivery env cfg br message).1 = []
                ∧ decision (handleDelivery env cfg br message).2
                  = decision (handleMessage cfg br (some persistenceErr) message)) := by
  constructor
  · intro hcreated
    cases hv : ValidateEventStructure (some event) with
    | some err => simp [ProcessEvent, hv] at hcreated
    | none =>
      refine ⟨rfl, ?_⟩
      cases hp : parseWithFormats env.timeParse event.Timestamp timestampFormats with
      | none => simp [ProcessEvent, hv, parseTimestamp, hp] at hcreated
      | some t =>
        obtain ⟨f, hf, hft⟩ := parseWithFormats_some _ _ _ _ hp
        exact ⟨f, hf, by rw [hft]; rfl⟩
  · intro hbad
    have hres : (ProcessEvent env (some event)).1 = []
        ∧ ∃ err, (ProcessEvent env (some event)).2 = some err := by
      cases hv : ValidateEventStructure (some event) with
      | some err =>
        exact ⟨by simp [ProcessEvent, hv], "event validation failed: " ++ err,
          by simp [ProcessEvent, hv]⟩
      | none =>
        have hvalid := ((ValidateEventStructure_nil_iff (some event)).1).1 hv
        obtain ⟨e, he, h1, h2, h3, h4⟩ := hvalid
        cases he
        rcases hbad with h | h | h | h | h
        · exact absurd h h1
        · exact absurd h h2
        · exact absurd h h3
        · exact absurd h h4
        · have hp := parseWithFormats_none env.timeParse event.Timestamp timestampFormats h
          exact ⟨by simp [ProcessEvent, hv, parseTimestamp, hp],
            "failed to parse timestamp: " ++ ("unable to parse timestamp: " ++ event.Timestamp),
            by simp [ProcessEvent, hv, parseTimestamp, hp]⟩
    obtain ⟨hnil, err, herr⟩ := hres
    refine ⟨hnil, by rw [herr]; simp, ?_⟩
    intro cfg br message persistenceErr hbody
    have hH : Handle env message.Body = ([], some ("failed to process event: " ++ err)) := by
      unfold Handle
      rw [hbody]
      have : ProcessEvent env (some event) = ([], some err) := Prod.ext hnil herr
      simp [this]
    unfold handleDelivery
    rw [hH]
    exact ⟨rfl, decision_independent_of_error cfg br message _ _⟩

/-- Instances of `ProcessEvent_creates_only_valid_parsed`: the event with an empty `eventId`
and the event with timestamp "not-a-date" are refused without a call of `Create`, the
event of scenario A reaches `Create`, and a first delivery is retried alike whether the
event is invalid or the insert fails. -/
theorem ProcessEvent_creates_only_valid_parsed_witness :
    ((ProcessEvent (scenarioEnv emptyIdEvent (Except.ok none)) (some emptyIdEvent)).1 = []
      ∧ (ProcessEvent (scenarioEnv emptyIdEvent (Except.ok none)) (some emptyIdEvent)).2
        ≠ none)
    ∧ ((ProcessEvent (scenarioEnv badTimestampEvent (Except.ok none))
          (some badTimestampEvent)).1 = []
      ∧ (ProcessEvent (scenarioEnv badTimestampEvent (Except.ok none))
          (some badTimestampEvent)).2 ≠ none)
    ∧ (ProcessEvent (scenarioEnv scenarioEvent (Except.ok none)) (some scenarioEvent)).1 ≠ []
    ∧ decision (handleDelivery (scenarioEnv emptyIdEvent (Except.ok none)) defaultConfig
          okBroker freshDelivery).2
        = decision (handleDelivery (scenarioEnv scenarioEvent (Except.error "server down"))
          defaultConfig okBroker freshDelivery).2 :=
  ⟨⟨((ProcessEvent_creates_only_valid_parsed (scenarioEnv emptyIdEvent (Except.ok none))
        emptyIdEvent).2 (Or.inl rfl)).1,
    ((ProcessEvent_creates_only_valid_parsed (scenarioEnv emptyIdEvent (Except.ok none))
        emptyIdEvent).2 (Or.inl rfl)).2.1⟩,
   ⟨((ProcessEvent_creates_only_valid_parsed (scenarioEnv badTimestampEvent (Except.ok none))
        badTimestampEvent).2 (Or.inr (Or.inr (Or.inr (Or.inr (by decide)))))).1,
    ((ProcessEvent_creates_only_valid_parsed (scenarioEnv badTimestampEvent (Except.ok none))
        badTimestampEvent).2 (Or.inr (Or.inr (Or.inr (Or.inr (by decide)))))).2.1⟩,
   by decide, by decide⟩

/-! ## Shutdown -/

/-- C14 (failing input): one registered consumer is started and is inside `handleMessage`
for a delivery when `StopAll` is called.  `StopAll` returns, with the wait group at zero
and the goroutine `startConsumer` exited, while `processMessages` is still handling that
delivery; the handling ends, and the loop exits, only in later steps. -/
theorem stopAll_returns_during_handling :
    (runSteps oneWorkerManager shutdownDuringHandling).map
        (fun cm => (cm.stopAll, cm.wg, cm.consumers.map (fun w => (w.unit, w.loop))))
      = some (StopAllState.returned, 0,
          [(UnitState.exited, LoopState.handling freshDelivery)])
    ∧ (runSteps oneWorkerManager
          (shutdownDuringHandling ++ [Step.finish 0, Step.stopSignal 0])).map
        (fun cm => (cm.stopAll, cm.consumers.map (fun w => w.loop)))
      = some (StopAllState.returned, [LoopState.exited]) := by
  decide

end Consumers
